import Mathlib

/-!
A verification development for the Flask song backend in `api/index.py`.

The Python code is shallowly embedded as follows.

* JSON-ish Python values that the code subscripts at run time are `PyVal`;
  subscripting a dict/list is `pyDictGet`/`pyIndex`, which return an
  `Except PyErr` capturing the exception that Python would raise.
* Code that can raise returns `Except PyErr α`; an uncaught exception is the
  `.error` case (Flask would turn it into a generic 500).
* External collaborators (the `spotipy` client and `yt_dlp`) are parameters:
  a handler receives functions describing the collaborator's response,
  exactly at the granularity the code consumes it.
* POSIX path strings are represented by their list of `/`-separated
  components (`PosixPath`); `"a/b"` is `["a", "b"]`, an absolute path starts with
  an empty component (`"/etc"` is `["", "etc"]`), and the empty string is
  `[""]`.  `posixpath.normpath` and `werkzeug.utils.safe_join` are embedded
  on this representation (`normSegs`, `safe_join`).
* The filesystem visible to `download_file` is the list of file paths that
  exist in it; the handler returns the response together with the trace of
  filesystem operations it performed and the resulting filesystem.
-/

/-- Python values as they flow through the handlers (JSON-ish data). -/
inductive PyVal where
  | pyNone
  | str (s : String)
  | int (n : Int)
  | list (xs : List PyVal)
  | dict (kv : List (String × PyVal))

/-- The Python exceptions the embedded code can raise. -/
inductive PyErr where
  | keyError (k : String)
  | indexError
  | typeError
  | downloadError
deriving DecidableEq

/-- Python `v[k]` on a value: `KeyError` when the key is missing, `TypeError`
when `v` is not a dict. -/
def pyDictGet (v : PyVal) (k : String) : Except PyErr PyVal :=
  match v with
  | .dict kv =>
    match kv.lookup k with
    | some x => .ok x
    | none => .error (.keyError k)
  | _ => .error .typeError

/-- Python `v[i]` on a value: `IndexError` when out of range, `TypeError`
when `v` is not a list. -/
def pyIndex (v : PyVal) (i : Nat) : Except PyErr PyVal :=
  match v with
  | .list xs =>
    match xs.get? i with
    | some x => .ok x
    | none => .error .indexError
  | _ => .error .typeError

/-- Python `v // d` (floor division): `TypeError` when `v` is not an int. -/
def pyFloorDiv (v : PyVal) (d : Int) : Except PyErr PyVal :=
  match v with
  | .int n => .ok (.int (Int.fdiv n d))
  | _ => .error .typeError

/-- Python `xs[i]` on an already-typed list (`IndexError` when out of range). -/
def listGet {α : Type} (xs : List α) (i : Nat) : Except PyErr α :=
  match xs.get? i with
  | some x => .ok x
  | none => .error .indexError

/-- A POSIX path string, represented by its `/`-separated components. -/
abbrev PosixPath := List String

/-- `DOWNLOAD_FOLDER = "downloads"` (api/index.py:16). -/
def DOWNLOAD_FOLDER : String := "downloads"

/-- The download folder as a `PosixPath`: the components of `"downloads"`. -/
def downloadFolderSegs : PosixPath := [DOWNLOAD_FOLDER]

/-- `os.path.isabs` on the component representation: a path string starts
with `/` exactly when its first component is empty and another follows. -/
def isAbs : PosixPath → Bool
  | "" :: _ :: _ => true
  | _ => false

/-- One step of CPython's `posixpath.normpath` component loop: skip empty and
`.` components; on `..` pop the last kept component, unless there is none
(keep the `..` for a relative path, drop it at the root of an absolute one)
or the last kept one is itself a `..` (keep piling them up).  The kept
components are threaded in reverse (head = most recently kept). -/
def normStep (isAbsolute : Bool) (st : List String) (c : String) : List String :=
  if c = "" ∨ c = "." then st
  else if c = ".." then
    match st with
    | [] => if isAbsolute then [] else [".."]
    | t :: rest => if t = ".." then c :: st else rest
  else c :: st

/-- The component list produced by `posixpath.normpath`. -/
def normSegs (isAbsolute : Bool) (p : PosixPath) : PosixPath :=
  (p.foldl (normStep isAbsolute) []).reverse

/-- `posixpath.normpath` on a path: normalize the components; a relative path
whose components all cancel normalizes to `"."`. -/
def posixNormpath (p : PosixPath) : PosixPath :=
  if (normSegs (isAbs p) p).isEmpty && !(isAbs p) then ["."]
  else normSegs (isAbs p) p

/-- The filename-normalization step of `werkzeug.utils.safe_join`: the loop
body normpaths every non-empty pathname. -/
def safeFn (filename : PosixPath) : PosixPath :=
  if filename = [""] then filename else posixNormpath filename

/-- `werkzeug.utils.safe_join(directory, filename)` on POSIX (the form used at
api/index.py:174): normalize the filename (skipped for the empty string),
refuse it when the normalized form is absolute, is `".."`, or starts with
`"../"` — on the component representation: when the original filename is
absolute or the first normalized component is `".."` — otherwise return
`posixpath.join(directory, filename_normalized)`. -/
def safe_join (directory : PosixPath) (filename : PosixPath) : Option PosixPath :=
  if isAbs filename || (safeFn filename).head? = some ".." then none
  else some (directory ++ safeFn filename)

/-- A filesystem operation performed by the file-delivery handler. -/
inductive FsOp where
  | openRead (p : PosixPath)
  | remove (p : PosixPath)
deriving DecidableEq

/-- What the file-delivery endpoint answers. -/
inductive DeliveryResult where
  | delivered (p : PosixPath)
  | notFound (status : Nat) (msg : String)
deriving DecidableEq

/-- Result of one `GET /download_file/<filename>` request: the HTTP-level
result, the filesystem operations in the order they were performed, and the
filesystem left behind. -/
structure ServeOutcome where
  result : DeliveryResult
  ops : List FsOp
  fs' : List PosixPath
deriving DecidableEq

/-- `download_file` (api/index.py:171-179).  `fs` is the set of files that
exist.  `safe_join` returning `None` makes `send_file(None, ...)` raise before
any filesystem access; a missing file makes `send_file` raise when it opens
the path; both are caught and turned into the 404 `File not found` response.
On success the file is opened and streamed, and the `call_on_close` callback
removes it when the response is closed — the WSGI server closes the response
after the transfer, whether or not the client aborted, so the operation trace
does not depend on `clientAborted`. -/
def download_file (fs : List PosixPath) (filename : PosixPath) (_clientAborted : Bool) :
    ServeOutcome :=
  match safe_join downloadFolderSegs filename with
  | none => ⟨.notFound 404 "File not found", [], fs⟩
  | some p =>
    if p ∈ fs then
      ⟨.delivered p, [.openRead p, .remove p], fs.filter (fun q => decide (q ≠ p))⟩
    else
      ⟨.notFound 404 "File not found", [.openRead p], fs⟩

/-- The resolution `DOWNLOAD_FOLDER/<filename>` escapes the download
directory: either the filename is absolute (so `posixpath.join` discards the
directory altogether), or normalizing the joined path does not leave
`"downloads"` as its first component (e.g. `..` components walked out of
it). -/
def escapesDownloadDir (filename : PosixPath) : Prop :=
  isAbs filename = true ∨
    (normSegs false (downloadFolderSegs ++ filename)).head? ≠ some DOWNLOAD_FOLDER

instance (filename : PosixPath) : Decidable (escapesDownloadDir filename) := by
  unfold escapesDownloadDir
  infer_instance

/-- The parts of the catalog service's track object (`sp.track`) that the
code reads: `name`, `album.images[*].url`, `duration_ms`, and the
`preview_url` entry when that key is present. -/
structure SpotifyTrack where
  name : String
  album_images : List String
  duration_ms : Nat
  preview_url : Option PyVal

/-- `get_spotify_track_info` (api/index.py:47-54): builds a dict with keys
`full_name`, `preview_image`, `duration`, `preview_url`.  Reading
`album.images[0]` can raise `IndexError` (propagated to the caller). -/
def get_spotify_track_info (track_info : SpotifyTrack) : Except PyErr PyVal :=
  match listGet track_info.album_images 0 with
  | .error e => .error e
  | .ok img =>
    .ok (.dict
      [("full_name", .str track_info.name),
       ("preview_image", .str img),
       ("duration", .int ((track_info.duration_ms / 1000 : Nat) : Int)),
       ("preview_url", track_info.preview_url.getD .pyNone)])

/-- One flat search entry of the extraction collaborator (`extract_flat`
search results); each field is the value of the corresponding `entry.get`
(a missing key yields `PyVal.pyNone`). -/
structure Entry where
  title : PyVal
  thumbnails : PyVal
  url : PyVal
  duration : PyVal

/-- `search_youtube_songs` (api/index.py:30-44).  The collaborator is
`provider`, mapping the query and the requested result count — the code asks
for `ytsearch{limit * page}` — to the `entries` value of the `extract_info`
result; `none` models a result dict without an `entries` key, which makes the
function return `([], False)`.  Otherwise the entries are sliced to
`[start:end]` with `start = (page - 1) * limit`, `end = start + limit`, and
`has_more` is `len(entries) > end` on the collaborator-returned list. -/
def search_youtube_songs (provider : String → Nat → Option (List Entry))
    (song_name : String) (page : Nat) (limit : Nat) : List Entry × Bool :=
  match provider song_name (limit * page) with
  | some entries =>
    ((entries.drop ((page - 1) * limit)).take limit,
     decide ((page - 1) * limit + limit < entries.length))
  | none => ([], false)

/-- The metadata-only `extract_info` result for a direct video link, at the
granularity `validate_song` reads it (`info.get(...)`). -/
structure YtInfo where
  title : PyVal
  thumbnail : PyVal
  duration : PyVal
  url : PyVal

/-- The external collaborators of `validate_song`: the catalog client's
track-by-id lookup, the extractor's metadata-only mode, and the extractor's
search mode (query and requested count to returned entries).  A `.error`
models the collaborator call raising. -/
structure Collab where
  spTrack : String → Except Unit SpotifyTrack
  ytExtract : String → Except Unit YtInfo
  ytSearch : String → Nat → Option (List Entry)

/-- Python truthiness of `data.get(...)` for a string field: `None` and the
empty string are falsy. -/
def truthy : Option String → Bool
  | none => false
  | some s => !(s == "")

/-- One option of the free-text search response (api/index.py:97-105). -/
structure SongOption where
  full_name : PyVal
  preview_image : PyVal
  youtube_link : PyVal
  duration : PyVal
  preview_url : PyVal

/-- The body of a `/validate_song` response. -/
inductive VOut where
  | meta (pairs : List (String × PyVal))
  | options (song_options : List SongOption) (has_more : Bool)
  | errorMsg (msg : String)

/-- An HTTP response: status code and JSON body. -/
structure HttpResp where
  status : Nat
  out : VOut

/-- The response dict built at api/index.py:71-77 from the value returned by
`get_spotify_track_info` — reading keys `name`, `album` (then `images`,
`[0]`, `url`) and `duration_ms`, which that dict does not contain, outside
the `try` block; a raised exception is `.error`. -/
def spotifyResponse (track_info : PyVal) : Except PyErr HttpResp :=
  match pyDictGet track_info "name" with
  | .error e => .error e
  | .ok full_name =>
    match pyDictGet track_info "album" with
    | .error e => .error e
    | .ok album =>
      match pyDictGet album "images" with
      | .error e => .error e
      | .ok images =>
        match pyIndex images 0 with
        | .error e => .error e
        | .ok img0 =>
          match pyDictGet img0 "url" with
          | .error e => .error e
          | .ok preview_image =>
            match pyDictGet track_info "duration_ms" with
            | .error e => .error e
            | .ok dms =>
              match pyFloorDiv dms 1000 with
              | .error e => .error e
              | .ok duration =>
                match pyDictGet track_info "preview_url" with
                | .error e => .error e
                | .ok purl =>
                  .ok ⟨200, .meta
                    [("full_name", full_name),
                     ("preview_image", preview_image),
                     ("duration", duration),
                     ("preview_url", purl),
                     ("source", .str "spotify")]⟩

/-- The `if spotify_link:` branch of `validate_song` (api/index.py:65-77).
The `try` block wraps only the `get_spotify_track_info` call (a raise there
becomes the 400 `Invalid Spotify link` response); the response building is
outside it. -/
def spotifyBranch (c : Collab) (link : String) : Except PyErr HttpResp :=
  match c.spTrack link with
  | .error _ => .ok ⟨400, .errorMsg "Invalid Spotify link"⟩
  | .ok t =>
    match get_spotify_track_info t with
    | .error _ => .ok ⟨400, .errorMsg "Invalid Spotify link"⟩
    | .ok track_info => spotifyResponse track_info

/-- The `if youtube_link:` branch of `validate_song` (api/index.py:79-92). -/
def youtubeBranch (c : Collab) (link : String) : Except PyErr HttpResp :=
  match c.ytExtract link with
  | .error _ => .ok ⟨400, .errorMsg "Invalid YouTube link"⟩
  | .ok info =>
    .ok ⟨200, .meta
      [("full_name", info.title),
       ("preview_image", info.thumbnail),
       ("duration", info.duration),
       ("preview_url", info.url),
       ("source", .str "youtube")]⟩

/-- One element of the `song_options` comprehension (api/index.py:97-105):
`entry.get('thumbnails')[0]['url']` can raise; `youtube_link` and
`preview_url` are both `entry.get('url')`. -/
def buildSongOption (e : Entry) : Except PyErr SongOption :=
  match pyIndex e.thumbnails 0 with
  | .error er => .error er
  | .ok th0 =>
    match pyDictGet th0 "url" with
    | .error er => .error er
    | .ok img => .ok ⟨e.title, img, e.url, e.duration, e.url⟩

/-- The whole `song_options` list comprehension, evaluated left to right;
the first raise aborts it. -/
def buildSongOptions : List Entry → Except PyErr (List SongOption)
  | [] => .ok []
  | e :: es =>
    match buildSongOption e with
    | .error er => .error er
    | .ok o =>
      match buildSongOptions es with
      | .error er => .error er
      | .ok os => .ok (o :: os)

/-- The `if song_name:` branch of `validate_song` (api/index.py:94-106): when
the sliced result list is empty, control falls through to the final
`"No valid song link or name provided"` 400 return at api/index.py:108. -/
def searchBranch (c : Collab) (song_name : String) (page : Nat) :
    Except PyErr HttpResp :=
  if (search_youtube_songs c.ytSearch song_name page 5).1.isEmpty then
    .ok ⟨400, .errorMsg "No valid song link or name provided"⟩
  else
    match buildSongOptions (search_youtube_songs c.ytSearch song_name page 5).1 with
    | .error er => .error er
    | .ok opts =>
      .ok ⟨200, .options opts (search_youtube_songs c.ytSearch song_name page 5).2⟩

/-- `validate_song` (api/index.py:57-108): reads `song_name`, `youtube_link`,
`spotify_link` and `page` from the request body and dispatches on Python
truthiness, Spotify link first, then YouTube link, then free-text search,
else the 400 `No valid song link or name provided` response. -/
def validate_song (c : Collab) (song_name youtube_link spotify_link : Option String)
    (page : Nat) : Except PyErr HttpResp :=
  if truthy spotify_link then spotifyBranch c (spotify_link.getD "")
  else if truthy youtube_link then youtubeBranch c (youtube_link.getD "")
  else if truthy song_name then searchBranch c (song_name.getD "") page
  else .ok ⟨400, .errorMsg "No valid song link or name provided"⟩

/-- The parts of one playlist item's `track` object that the code reads
(api/index.py:121-129).  The spec notes the code assumes every item has a
non-null `track`; items are therefore modeled by their track. -/
structure PlaylistTrack where
  name : String
  artists : List String
  album_images : List String
  duration_ms : Nat
  preview_url : Option String
deriving DecidableEq

/-- One entry of the `songs` list built by `get_playlist_songs`. -/
structure PlaylistSong where
  full_name : String
  artist : String
  preview_image : String
  duration : Nat
  preview_url : Option String
deriving DecidableEq

/-- Building one `songs` entry (api/index.py:123-129): `artists[0]` and
`album.images[0]` can raise `IndexError`; `duration` is
`duration_ms // 1000`; `preview_url` is a `.get` with default `None`. -/
def buildPlaylistSong (track : PlaylistTrack) : Except PyErr PlaylistSong :=
  match listGet track.artists 0 with
  | .error e => .error e
  | .ok artist =>
    match listGet track.album_images 0 with
    | .error e => .error e
    | .ok img =>
      .ok ⟨track.name, artist, img, track.duration_ms / 1000, track.preview_url⟩

/-- The loop over `playlist['items']`, in order; the first raise aborts. -/
def buildPlaylistSongs : List PlaylistTrack → Except PyErr (List PlaylistSong)
  | [] => .ok []
  | t :: ts =>
    match buildPlaylistSong t with
    | .error e => .error e
    | .ok s =>
      match buildPlaylistSongs ts with
      | .error e => .error e
      | .ok ss => .ok (s :: ss)

/-- The body of a `/get_playlist_songs` response. -/
inductive POut where
  | songs (songs : List PlaylistSong)
  | errorMsg (msg : String)
deriving DecidableEq

/-- An HTTP response of the playlist endpoint. -/
structure PlaylistResp where
  status : Nat
  out : POut
deriving DecidableEq

/-- `get_playlist_songs` (api/index.py:111-133).  Everything from the
identifier extraction onwards sits inside one `try`: a missing or `None`
`playlist_link` raises `AttributeError` on `None.split`, a collaborator raise
(`lookup` returning `.error`) and any raise while building the songs are all
caught by the same `except` and become the 400 `Invalid Spotify playlist
link` response.  The identifier is `link.split('/')[-1].split('?')[0]`. -/
def get_playlist_songs (lookup : String → Except Unit (List PlaylistTrack))
    (playlist_link : Option String) : PlaylistResp :=
  match playlist_link with
  | none => ⟨400, .errorMsg "Invalid Spotify playlist link"⟩
  | some link =>
    let playlist_id := (((link.splitOn "/").getLastD "").splitOn "?").headD ""
    match lookup playlist_id with
    | .error _ => ⟨400, .errorMsg "Invalid Spotify playlist link"⟩
    | .ok items =>
      match buildPlaylistSongs items with
      | .error _ => ⟨400, .errorMsg "Invalid Spotify playlist link"⟩
      | .ok songs => ⟨200, .songs songs⟩

/-- What `ydl.extract_info(f"ytsearch:{song_name}", download=True)` does for
one name, at the granularity `search_and_download_song` consumes it: the call
raises, or returns an info dict without an `entries` key, or returns the
`entries` list, each entry giving the `title` used for the output file. -/
inductive YtDownloadResult where
  | raises
  | noEntries
  | entries (titles : List String)
deriving DecidableEq

/-- `os.path.basename`: the component after the final `/`. -/
def basename (p : String) : String := (p.splitOn "/").getLastD ""

/-- `search_and_download_song` (api/index.py:136-155).  There is no
`try`/`except`: a raising collaborator propagates (`.error .downloadError`);
an `entries` key holding an empty list makes `info['entries'][0]` raise
`IndexError`; a result without an `entries` key reaches the final
`return None`. -/
def search_and_download_song (dl : String → YtDownloadResult)
    (song_name : String) : Except PyErr (Option String) :=
  match dl song_name with
  | .raises => .error .downloadError
  | .noEntries => .ok none
  | .entries [] => .error .indexError
  | .entries (t :: _) =>
    .ok (some (DOWNLOAD_FOLDER ++ "/" ++ t ++ ".mp3"))

/-- The `for song in song_names:` loop of `download_songs`
(api/index.py:163-166), carrying the accumulated basenames; an uncaught
exception from `search_and_download_song` aborts the whole request. -/
def download_songs_loop (dl : String → YtDownloadResult) (acc : List String) :
    List String → Except PyErr (List String)
  | [] => .ok acc
  | song :: rest =>
    match search_and_download_song dl song with
    | .error e => .error e
    | .ok none => download_songs_loop dl acc rest
    | .ok (some fp) => download_songs_loop dl (acc ++ [basename fp]) rest

/-- `download_songs` (api/index.py:158-168): the `downloaded_songs` list of a
`POST /download_songs` request, or the exception that aborted it. -/
def download_songs (dl : String → YtDownloadResult) (song_names : List String) :
    Except PyErr (List String) :=
  download_songs_loop dl [] song_names

/-- The filename `download_songs` contributes for one name: the basename of
the produced file when the collaborator returns a first entry, nothing when
it returns a result without an `entries` key (the skip path), unspecified
otherwise (those cases raise). -/
def downloadedName (dl : String → YtDownloadResult) (song_name : String) :
    Option String :=
  match dl song_name with
  | .entries (t :: _) => some (basename (DOWNLOAD_FOLDER ++ "/" ++ t ++ ".mp3"))
  | _ => none

/-- A collaborator whose every call fails / returns nothing. -/
def noCollab : Collab :=
  ⟨fun _ => .error (), fun _ => .error (), fun _ _ => none⟩

/-- A catalog track used as concrete test data. -/
def exTrack : SpotifyTrack :=
  ⟨"Test Song", ["http://img.example/a.jpg"], 217000, some (.str "http://p.example/a")⟩

/-- A collaborator whose track lookup succeeds with `exTrack`. -/
def collabSpotifyOk : Collab :=
  ⟨fun _ => .ok exTrack, fun _ => .error (), fun _ _ => none⟩

/-- A concrete flat search entry. -/
def exEntry : Entry :=
  ⟨.str "Title", .list [.dict [("url", .str "http://thumb.example/t.jpg")]],
   .str "http://watch.example/v", .int 212⟩

/-- Six identical search entries (a full result set larger than one page). -/
def exEntries6 : List Entry := List.replicate 6 exEntry

/-- A collaborator whose search mode honors the requested count over the
one-element full result set `[exEntry]`. -/
def collabSearch : Collab :=
  ⟨fun _ => .error (), fun _ => .error (), fun _ n => some ([exEntry].take n)⟩

/-- The song option `validate_song` builds from `exEntry`. -/
def exOption : SongOption :=
  ⟨.str "Title", .str "http://thumb.example/t.jpg", .str "http://watch.example/v",
   .int 212, .str "http://watch.example/v"⟩

/-- A download collaborator raising on `"a"` and succeeding on `"b"`. -/
def exDlRaises : String → YtDownloadResult :=
  fun s => if s = "a" then .raises else .entries [s]

/-- A download collaborator returning an `entries`-less result for `"a"` and
succeeding on `"b"`. -/
def exDlSkips : String → YtDownloadResult :=
  fun s => if s = "a" then .noEntries else .entries [s]

/-- A playlist track used as concrete test data. -/
def exPlaylistTrack : PlaylistTrack :=
  ⟨"Test Song", ["Test Artist"], ["http://img.example/a.jpg"], 61999, none⟩

/-- The playlist song built from `exPlaylistTrack`. -/
def exPlaylistSong : PlaylistSong :=
  ⟨"Test Song", "Test Artist", "http://img.example/a.jpg", 61, none⟩

/-- A one-file filesystem: `downloads/song.mp3` exists. -/
def exFs : List PosixPath := [["downloads", "song.mp3"]]

/-- `normStep` on an empty or `.` component leaves the stack unchanged. -/
theorem normStep_skip {c : String} (h : c = "" ∨ c = ".") (ab : Bool)
    (st : List String) : normStep ab st c = st := by
  unfold normStep
  rw [if_pos h]

/-- `normStep` on an ordinary component pushes it. -/
theorem normStep_push {c : String} (h1 : ¬(c = "" ∨ c = ".")) (h2 : ¬ c = "..")
    (ab : Bool) (st : List String) : normStep ab st c = c :: st := by
  unfold normStep
  rw [if_neg h1, if_neg h2]

/-- `normStep` on `..` with an empty stack keeps the `..` (relative path). -/
theorem normStep_dd_nil_rel : normStep false [] ".." = [".."] := rfl

/-- `normStep` on `..` when the stack top is a `..` piles it up. -/
theorem normStep_dd_cons_dd (r : List String) :
    normStep false (".." :: r) ".." = ".." :: ".." :: r := rfl

/-- `normStep` on `..` pops an ordinary stack top. -/
theorem normStep_dd_cons {t : String} (r : List String) (ht : ¬ t = "..") :
    normStep false (t :: r) ".." = r := by
  show (if t = ".." then ".." :: t :: r else r) = r
  rw [if_neg ht]

/-- A `..` already in the stack survives the rest of the normpath fold. -/
theorem dotdot_mem_foldl (f : List String) :
    ∀ st : List String, ".." ∈ st → ".." ∈ f.foldl (normStep false) st := by
  induction f with
  | nil => intro st h; exact h
  | cons c cs ih =>
    intro st h
    rw [List.foldl_cons]
    apply ih
    by_cases hc1 : c = "" ∨ c = "."
    · rw [normStep_skip hc1]; exact h
    · by_cases hc2 : c = ".."
      · subst hc2
        cases st with
        | nil => cases h
        | cons t r =>
          by_cases ht : t = ".."
          · subst ht
            rw [normStep_dd_cons_dd]
            exact List.mem_cons_of_mem _ h
          · rw [normStep_dd_cons r ht]
            rcases List.mem_cons.mp h with h1 | h1
            · exact absurd h1.symm ht
            · exact h1
      · rw [normStep_push hc1 hc2]
        exact List.mem_cons_of_mem _ h

/-- Throughout the normpath fold, any `..` in the stack sits at its bottom
(i.e. is the last element of the reversed stack). -/
theorem foldl_dotdot_getLast (f : List String) :
    ∀ st : List String, (".." ∈ st → st.getLast? = some "..") →
      ".." ∈ f.foldl (normStep false) st →
      (f.foldl (normStep false) st).getLast? = some ".." := by
  induction f with
  | nil => intro st hst h; exact hst h
  | cons c cs ih =>
    intro st hst h
    rw [List.foldl_cons] at h ⊢
    refine ih (normStep false st c) ?_ h
    intro hm
    by_cases hc1 : c = "" ∨ c = "."
    · rw [normStep_skip hc1] at hm ⊢
      exact hst hm
    · by_cases hc2 : c = ".."
      · subst hc2
        cases st with
        | nil =>
          rw [normStep_dd_nil_rel]
          rfl
        | cons t r =>
          by_cases ht : t = ".."
          · subst ht
            rw [normStep_dd_cons_dd] at hm ⊢
            have h2 := hst (List.mem_cons_self ".." r)
            rw [List.getLast?_cons_cons]
            exact h2
          · rw [normStep_dd_cons r ht] at hm ⊢
            have h2 := hst (List.mem_cons_of_mem t hm)
            cases r with
            | nil => cases hm
            | cons a r' =>
              rw [List.getLast?_cons_cons] at h2
              exact h2
      · rw [normStep_push hc1 hc2] at hm ⊢
        have hm' : ".." ∈ st := by
          rcases List.mem_cons.mp hm with h1 | h1
          · exact absurd h1.symm hc2
          · exact h1
        have h2 := hst hm'
        cases st with
        | nil => cases hm'
        | cons a r =>
          rw [List.getLast?_cons_cons]
          exact h2

/-- As long as the running normpath fold never walks below its starting
stack (no `..` survives in the small run), an extra ordinary component at the
bottom of the stack just rides along. -/
theorem foldl_normStep_append_base (f : List String) :
    ∀ (st : List String) (d : String), ¬(d = "" ∨ d = ".") → ¬ d = ".." →
      ".." ∉ f.foldl (normStep false) st →
      f.foldl (normStep false) (st ++ [d]) = f.foldl (normStep false) st ++ [d] := by
  induction f with
  | nil => intro st d _ _ _; rfl
  | cons c cs ih =>
    intro st d hd1 hd2 hmem
    rw [List.foldl_cons] at hmem ⊢
    rw [List.foldl_cons]
    by_cases hc1 : c = "" ∨ c = "."
    · rw [normStep_skip hc1 false (st ++ [d]), normStep_skip hc1 false st]
      rw [normStep_skip hc1 false st] at hmem
      exact ih st d hd1 hd2 hmem
    · by_cases hc2 : c = ".."
      · subst hc2
        cases st with
        | nil =>
          rw [normStep_dd_nil_rel] at hmem
          exact absurd (dotdot_mem_foldl cs [".."] (List.mem_cons_self ".." [])) hmem
        | cons t r =>
          rw [List.cons_append]
          by_cases ht : t = ".."
          · subst ht
            rw [normStep_dd_cons_dd (r ++ [d]), normStep_dd_cons_dd r]
            rw [normStep_dd_cons_dd r] at hmem
            have h3 := ih (".." :: ".." :: r) d hd1 hd2 hmem
            simpa using h3
          · rw [normStep_dd_cons (r ++ [d]) ht, normStep_dd_cons r ht]
            rw [normStep_dd_cons r ht] at hmem
            exact ih r d hd1 hd2 hmem
      · rw [normStep_push hc1 hc2 false (st ++ [d]), normStep_push hc1 hc2 false st]
        rw [normStep_push hc1 hc2 false st] at hmem
        have h3 := ih (c :: st) d hd1 hd2 hmem
        simpa using h3

/-- When a relative path does not normalize to a `..`-leading path, an
ordinary directory prepended to it survives normalization at the front. -/
theorem normSegs_cons_of_head (f : List String) (d : String)
    (hd1 : ¬(d = "" ∨ d = ".")) (hd2 : ¬ d = "..")
    (h : (normSegs false f).head? ≠ some "..") :
    normSegs false (d :: f) = d :: normSegs false f := by
  have hnm : ".." ∉ f.foldl (normStep false) [] := by
    intro hmem
    have hl := foldl_dotdot_getLast f [] (by intro hx; cases hx) hmem
    rw [normSegs, List.head?_reverse] at h
    exact h hl
  unfold normSegs
  rw [List.foldl_cons]
  rw [normStep_push hd1 hd2 false []]
  have h4 : f.foldl (normStep false) ([] ++ [d]) = f.foldl (normStep false) [] ++ [d] :=
    foldl_normStep_append_base f [] d hd1 hd2 hnm
  rw [show ([d] : List String) = [] ++ [d] from rfl, h4]
  rw [List.reverse_append]
  rfl

/-- When `safe_join` accepts a filename, that filename is relative and its
normalized form does not begin with `..`. -/
theorem safe_join_some_inv (filename p : PosixPath)
    (h : safe_join downloadFolderSegs filename = some p) :
    isAbs filename = false ∧ (normSegs false filename).head? ≠ some ".." := by
  unfold safe_join at h
  split at h
  · exact Option.noConfusion h
  · rename_i hcond
    rw [Bool.or_eq_true] at hcond
    push_neg at hcond
    obtain ⟨habs0, hdd0⟩ := hcond
    have habs : isAbs filename = false := by simpa using habs0
    refine ⟨habs, ?_⟩
    have hdd : ¬ (safeFn filename).head? = some ".." := by simpa using hdd0
    unfold safeFn at hdd
    by_cases hemp : filename = [""]
    · subst hemp
      intro hx
      exact Option.noConfusion hx
    · rw [if_neg hemp] at hdd
      unfold posixNormpath at hdd
      rw [habs] at hdd
      cases hns : normSegs false filename with
      | nil =>
        intro hx
        exact Option.noConfusion hx
      | cons x xs =>
        rw [hns] at hdd
        simp at hdd
        simpa using hdd

/-- C1: for every filename whose resolution against the fixed download
directory escapes that directory (via `..` segments or an absolute path),
`download_file` returns the 404 `File not found` error, performs no
filesystem open or delete at all (in particular none outside the download
directory), and leaves the filesystem unchanged. -/
theorem download_file_rejects_escaping_paths
    (fs : List PosixPath) (filename : PosixPath) (ab : Bool)
    (h : escapesDownloadDir filename) :
    download_file fs filename ab = ⟨.notFound 404 "File not found", [], fs⟩ := by
  have hnone : safe_join downloadFolderSegs filename = none := by
    cases hsj : safe_join downloadFolderSegs filename with
    | none => rfl
    | some p =>
      exfalso
      obtain ⟨habs, hdd⟩ := safe_join_some_inv filename p hsj
      rcases h with h1 | h2
      · rw [habs] at h1
        exact Bool.noConfusion h1
      · apply h2
        have hcons := normSegs_cons_of_head filename DOWNLOAD_FOLDER
          (by decide) (by decide) hdd
        rw [show downloadFolderSegs ++ filename = DOWNLOAD_FOLDER :: filename from rfl,
          hcons]
        rfl
  simp [download_file, hnone]

/-- Witness for C1 at the classic traversal filename `../../etc/passwd`. -/
theorem download_file_rejects_escaping_paths_witness :
    download_file exFs ["..", "..", "etc", "passwd"] true
      = ⟨.notFound 404 "File not found", [], exFs⟩ :=
  download_file_rejects_escaping_paths exFs ["..", "..", "etc", "passwd"] true
    (by decide)

/-- C5: whenever `download_file` delivers a file, the delete happens after the
open/stream of that same file (the operation trace is exactly open then
remove, for any abort status of the transfer), and a second identical request
against the resulting filesystem returns the 404 `File not found` error. -/
theorem download_file_deletes_after_transfer
    (fs : List PosixPath) (filename p : PosixPath) (ab ab' : Bool)
    (h : (download_file fs filename ab).result = .delivered p) :
    (download_file fs filename ab).ops = [.openRead p, .remove p] ∧
    (download_file (download_file fs filename ab).fs' filename ab').result
      = .notFound 404 "File not found" := by
  cases hsj : safe_join downloadFolderSegs filename with
  | none =>
    simp [download_file, hsj] at h
  | some q =>
    by_cases hq : q ∈ fs
    · have hres : download_file fs filename ab
          = ⟨.delivered q, [.openRead q, .remove q],
             fs.filter (fun x => decide (x ≠ q))⟩ := by
        simp [download_file, hsj, hq]
      rw [hres] at h
      simp at h
      subst h
      refine ⟨by rw [hres], ?_⟩
      rw [hres]
      have hnot : q ∉ fs.filter (fun x => decide (x ≠ q)) := by
        intro hmem
        simp [List.mem_filter] at hmem
      simp [download_file, hsj, hnot]
    · have hres : download_file fs filename ab
          = ⟨.notFound 404 "File not found", [.openRead q], fs⟩ := by
        simp [download_file, hsj, hq]
      rw [hres] at h
      simp at h

/-- Witness for C5: delivering `downloads/song.mp3` opens then removes it, and
the repeat request is a 404. -/
theorem download_file_deletes_after_transfer_witness :
    (download_file exFs ["song.mp3"] true).ops
        = [.openRead ["downloads", "song.mp3"], .remove ["downloads", "song.mp3"]] ∧
    (download_file (download_file exFs ["song.mp3"] true).fs' ["song.mp3"] false).result
        = .notFound 404 "File not found" :=
  download_file_deletes_after_transfer exFs ["song.mp3"] ["downloads", "song.mp3"]
    true false (by decide)

/-- C2 (code-bug evidence): with a catalog track lookup that succeeds,
`validate_song` raises `KeyError('name')` instead of answering 200 — the
response building at api/index.py:71-77 reads keys (`name`, `album`,
`duration_ms`) that the dict returned by `get_spotify_track_info` does not
contain, and it does so outside the `try`/`except`, so the exception
propagates as an unhandled server error. -/
theorem validate_song_spotify_success_raises_keyerror :
    validate_song collabSpotifyOk none none (some "https://open.spotify.com/track/x") 1
      = .error (.keyError "name") := rfl

/-- On every dict that `get_spotify_track_info` returns, the response
building of the Spotify branch raises `KeyError('name')`. -/
theorem spotifyResponse_keyerror (t : SpotifyTrack) (ti : PyVal)
    (h : get_spotify_track_info t = .ok ti) :
    spotifyResponse ti = .error (.keyError "name") := by
  unfold get_spotify_track_info at h
  cases hlg : listGet t.album_images 0 with
  | error e =>
    rw [hlg] at h
    exact Except.noConfusion h
  | ok img =>
    rw [hlg] at h
    injection h with h2
    subst h2
    rfl

/-- C6: the `duration` produced from a successful catalog track lookup is the
provider's millisecond duration integer-divided by 1000 — both in the dict
built by `get_spotify_track_info` and in every playlist song built by
`get_playlist_songs`. -/
theorem duration_is_ms_div_1000 :
    (∀ (t : SpotifyTrack) (ti : PyVal), get_spotify_track_info t = .ok ti →
        pyDictGet ti "duration" = .ok (.int ((t.duration_ms / 1000 : Nat) : Int))) ∧
    (∀ (tr : PlaylistTrack) (s : PlaylistSong), buildPlaylistSong tr = .ok s →
        s.duration = tr.duration_ms / 1000) := by
  constructor
  · intro t ti h
    unfold get_spotify_track_info at h
    cases hlg : listGet t.album_images 0 with
    | error e =>
      rw [hlg] at h
      exact Except.noConfusion h
    | ok img =>
      rw [hlg] at h
      injection h with h2
      subst h2
      rfl
  · intro tr s h
    unfold buildPlaylistSong at h
    cases ha : listGet tr.artists 0 with
    | error e =>
      rw [ha] at h
      exact Except.noConfusion h
    | ok a =>
      rw [ha] at h
      cases hi : listGet tr.album_images 0 with
      | error e =>
        rw [hi] at h
        exact Except.noConfusion h
      | ok img =>
        rw [hi] at h
        injection h with h2
        subst h2
        rfl

/-- Witness for C6 on `exPlaylistTrack` (61999 ms gives 61 s). -/
theorem duration_is_ms_div_1000_witness :
    exPlaylistSong.duration = 61999 / 1000 :=
  duration_is_ms_div_1000.2 exPlaylistTrack exPlaylistSong rfl

/-- C10: a `/get_playlist_songs` request without a `playlist_link` (or with a
null one) is answered by the 400 `Invalid Spotify playlist link` response —
`None.split` raises inside the same `try` as the collaborator call — not by a
distinct missing-input error and not by an unhandled server error. -/
theorem get_playlist_songs_missing_link_invalid
    (lookup : String → Except Unit (List PlaylistTrack)) :
    get_playlist_songs lookup none
      = ⟨400, .errorMsg "Invalid Spotify playlist link"⟩ := rfl

/-- Unfolding equation of the download loop on a non-empty list. -/
theorem download_songs_loop_cons (dl : String → YtDownloadResult)
    (acc : List String) (song : String) (rest : List String) :
    download_songs_loop dl acc (song :: rest)
      = match search_and_download_song dl song with
        | .error e => .error e
        | .ok none => download_songs_loop dl acc rest
        | .ok (some fp) => download_songs_loop dl (acc ++ [basename fp]) rest := rfl

/-- The download loop, when the collaborator raises on no requested name and
returns no empty `entries` list, collects exactly the per-name basenames in
order after the accumulator. -/
theorem download_songs_loop_ok (dl : String → YtDownloadResult) :
    ∀ (songs : List String) (acc : List String),
      (∀ s ∈ songs, dl s ≠ .raises ∧ dl s ≠ .entries []) →
      download_songs_loop dl acc songs
        = .ok (acc ++ songs.filterMap (downloadedName dl)) := by
  intro songs
  induction songs with
  | nil =>
    intro acc h
    simp [download_songs_loop]
  | cons song rest ih =>
    intro acc h
    have hs := h song (List.mem_cons_self song rest)
    have hrest : ∀ x ∈ rest, dl x ≠ .raises ∧ dl x ≠ .entries [] :=
      fun x hx => h x (List.mem_cons_of_mem song hx)
    rw [download_songs_loop_cons]
    cases hdl : dl song with
    | raises => exact absurd hdl hs.1
    | noEntries =>
      have hsd : search_and_download_song dl song = .ok none := by
        unfold search_and_download_song
        rw [hdl]
      have hdn : downloadedName dl song = none := by
        unfold downloadedName
        rw [hdl]
      rw [hsd, List.filterMap_cons, hdn]
      exact ih acc hrest
    | entries ts =>
      cases ts with
      | nil => exact absurd hdl hs.2
      | cons t ts' =>
        have hsd : search_and_download_song dl song
            = .ok (some (DOWNLOAD_FOLDER ++ "/" ++ t ++ ".mp3")) := by
          unfold search_and_download_song
          rw [hdl]
        have hdn : downloadedName dl song
            = some (basename (DOWNLOAD_FOLDER ++ "/" ++ t ++ ".mp3")) := by
          unfold downloadedName
          rw [hdl]
        rw [hsd, List.filterMap_cons, hdn]
        have h5 := ih (acc ++ [basename (DOWNLOAD_FOLDER ++ "/" ++ t ++ ".mp3")]) hrest
        exact h5.trans (by simp)

/-- C3 (amended): when the collaborator raises for no requested name and
returns no empty `entries` list, `download_songs` skips every entries-less
name and returns exactly the basenames of the successfully produced files, in
input order. -/
theorem download_songs_skips_failed_names (dl : String → YtDownloadResult)
    (song_names : List String)
    (h : ∀ s ∈ song_names, dl s ≠ .raises ∧ dl s ≠ .entries []) :
    download_songs dl song_names
      = .ok (song_names.filterMap (downloadedName dl)) := by
  unfold download_songs
  simpa using download_songs_loop_ok dl song_names [] h

/-- C3 (counterexample): with a collaborator that raises on `"a"` and would
succeed on `"b"`, `download_songs ["a", "b"]` aborts with the propagated
exception instead of returning `downloaded_songs = ["b.mp3"]`. -/
theorem download_songs_exception_aborts_batch :
    download_songs exDlRaises ["a", "b"] = .error .downloadError ∧
    download_songs exDlRaises ["a", "b"] ≠ .ok ["b.mp3"] :=
  ⟨rfl, fun hx => Except.noConfusion hx⟩

/-- Witness for C3's amended theorem: `"a"` yields an entries-less result and
is skipped, `"b"` succeeds; the response lists only `b.mp3`. -/
theorem download_songs_skips_failed_names_witness :
    download_songs exDlSkips ["a", "b"]
      = .ok (["a", "b"].filterMap (downloadedName exDlSkips)) :=
  download_songs_skips_failed_names exDlSkips ["a", "b"] (by decide)

/-- C4 (counterexample): with a provider holding six matching entries and
honoring the requested count, page 1 yields `has_more = false` although the
full result set (6) is strictly larger than `page * 5 = 5`; `has_more` is
therefore not equivalent to the full result set exceeding `page * 5`. -/
theorem search_has_more_misses_full_set :
    ¬(((search_youtube_songs (fun _ k => some (exEntries6.take k)) "q" 1 5).2 = true)
        ↔ 5 * 1 < exEntries6.length) := by
  decide

/-- C4 (amended): the free-text search requests `limit * page = 5 * page`
results from the collaborator, slices them to the window
`[(page-1)*5, page*5)` (hence at most 5 options), and computes `has_more` by
comparing the length of the collaborator-returned list against `page * 5` —
so under a provider that returns at most the requested count, `has_more` is
always `false`. -/
theorem search_youtube_songs_pagination (full : List Entry) (q : String)
    (page : Nat) (h : 1 ≤ page) :
    (search_youtube_songs (fun _ k => some (full.take k)) q page 5).1
        = ((full.take (5 * page)).drop ((page - 1) * 5)).take 5 ∧
    (search_youtube_songs (fun _ k => some (full.take k)) q page 5).1.length ≤ 5 ∧
    (search_youtube_songs (fun _ k => some (full.take k)) q page 5).2 = false := by
  refine ⟨rfl, ?_, ?_⟩
  · show (((full.take (5 * page)).drop ((page - 1) * 5)).take 5).length ≤ 5
    rw [List.length_take]
    omega
  · show decide ((page - 1) * 5 + 5 < (full.take (5 * page)).length) = false
    rw [decide_eq_false_iff_not, List.length_take]
    omega

/-- Witness for C4's amended theorem at page 2 over the six-entry set. -/
theorem search_youtube_songs_pagination_witness :
    (search_youtube_songs (fun _ k => some (exEntries6.take k)) "q" 2 5).1
        = ((exEntries6.take (5 * 2)).drop ((2 - 1) * 5)).take 5 ∧
    (search_youtube_songs (fun _ k => some (exEntries6.take k)) "q" 2 5).1.length ≤ 5 ∧
    (search_youtube_songs (fun _ k => some (exEntries6.take k)) "q" 2 5).2 = false :=
  search_youtube_songs_pagination exEntries6 "q" 2 (by decide)

/-- C7: `validate_song` honors only the first (truthily) present input in the
priority order Spotify link, then YouTube link, then free-text song name: the
response — success body or error kind alike — is unchanged under arbitrary
replacement of the ignored inputs (including replacement of the skipped
falsy ones). -/
theorem validate_song_priority :
    (∀ (c : Collab) (s y y' n n' : Option String) (page : Nat),
        truthy s = true →
        validate_song c n y s page = validate_song c n' y' s page) ∧
    (∀ (c : Collab) (s s' y n n' : Option String) (page : Nat),
        truthy s = false → truthy s' = false → truthy y = true →
        validate_song c n y s page = validate_song c n' y s' page) ∧
    (∀ (c : Collab) (s s' y y' n : Option String) (page : Nat),
        truthy s = false → truthy s' = false → truthy y = false →
        truthy y' = false → truthy n = true →
        validate_song c n y s page = validate_song c n y' s' page) := by
  refine ⟨?_, ?_, ?_⟩
  all_goals intros
  all_goals simp [validate_song, *]

/-- Witness for C7: with a Spotify link present, replacing the other two
inputs does not change the response. -/
theorem validate_song_priority_witness :
    validate_song collabSpotifyOk (some "a song") (some "link") (some "sp") 1
      = validate_song collabSpotifyOk none none (some "sp") 1 :=
  validate_song_priority.1 collabSpotifyOk (some "sp") (some "link") none
    (some "a song") none 1 (by decide)

/-- C8: when none of `spotify_link`, `youtube_link`, `song_name` is (truthily)
present, `validate_song` answers the 400 missing-input error. -/
theorem validate_song_missing_input (c : Collab) (n y s : Option String)
    (page : Nat) (h1 : truthy s = false) (h2 : truthy y = false)
    (h3 : truthy n = false) :
    validate_song c n y s page
      = .ok ⟨400, .errorMsg "No valid song link or name provided"⟩ := by
  simp [validate_song, h1, h2, h3]

/-- Witness for C8 at the all-absent request body. -/
theorem validate_song_missing_input_witness :
    validate_song noCollab none none none 1
      = .ok ⟨400, .errorMsg "No valid song link or name provided"⟩ :=
  validate_song_missing_input noCollab none none none 1 rfl rfl rfl

/-- The Spotify branch never returns a `song_options` body: it answers the
400 error or raises `KeyError`. -/
theorem spotifyBranch_not_options (c : Collab) (l : String) (st : Nat)
    (opts : List SongOption) (hm : Bool) :
    spotifyBranch c l ≠ .ok ⟨st, .options opts hm⟩ := by
  intro h
  unfold spotifyBranch at h
  cases hsp : c.spTrack l with
  | error e =>
    rw [hsp] at h
    injection h with h2
    injection h2 with hst hout
    exact VOut.noConfusion hout
  | ok t =>
    simp only [hsp] at h
    cases hg : get_spotify_track_info t with
    | error e =>
      rw [hg] at h
      injection h with h2
      injection h2 with hst hout
      exact VOut.noConfusion hout
    | ok ti =>
      simp only [hg] at h
      rw [spotifyResponse_keyerror t ti hg] at h
      exact Except.noConfusion h

/-- The YouTube branch never returns a `song_options` body. -/
theorem youtubeBranch_not_options (c : Collab) (l : String) (st : Nat)
    (opts : List SongOption) (hm : Bool) :
    youtubeBranch c l ≠ .ok ⟨st, .options opts hm⟩ := by
  intro h
  unfold youtubeBranch at h
  cases hyt : c.ytExtract l with
  | error e =>
    rw [hyt] at h
    injection h with h2
    injection h2 with hst hout
    exact VOut.noConfusion hout
  | ok info =>
    rw [hyt] at h
    injection h with h2
    injection h2 with hst hout
    exact VOut.noConfusion hout

/-- Each song option copies both `youtube_link` and `preview_url` from the
entry's `url`, so the two fields agree. -/
theorem buildSongOption_fields (e : Entry) (o : SongOption)
    (h : buildSongOption e = .ok o) : o.preview_url = o.youtube_link := by
  unfold buildSongOption at h
  cases h1 : pyIndex e.thumbnails 0 with
  | error er =>
    rw [h1] at h
    exact Except.noConfusion h
  | ok th0 =>
    simp only [h1] at h
    cases h2 : pyDictGet th0 "url" with
    | error er =>
      rw [h2] at h
      exact Except.noConfusion h
    | ok img =>
      rw [h2] at h
      injection h with h3
      subst h3
      rfl

/-- The agreement of `preview_url` and `youtube_link` holds across the whole
built option list. -/
theorem buildSongOptions_fields :
    ∀ (es : List Entry) (os : List SongOption),
      buildSongOptions es = .ok os →
      ∀ o ∈ os, o.preview_url = o.youtube_link := by
  intro es
  induction es with
  | nil =>
    intro os h o ho
    injection h with h2
    subst h2
    cases ho
  | cons e rest ih =>
    intro os h o ho
    unfold buildSongOptions at h
    cases h1 : buildSongOption e with
    | error er =>
      rw [h1] at h
      exact Except.noConfusion h
    | ok o1 =>
      rw [h1] at h
      cases h2 : buildSongOptions rest with
      | error er =>
        rw [h2] at h
        exact Except.noConfusion h
      | ok os1 =>
        rw [h2] at h
        injection h with h3
        subst h3
        rcases List.mem_cons.mp ho with h4 | h4
        · subst h4
          exact buildSongOption_fields e o h1
        · exact ih os1 h2 o h4

/-- Inverting the search branch on an options response: the options are the
ones built from the sliced search results. -/
theorem searchBranch_options_inv (c : Collab) (q : String) (page st : Nat)
    (opts : List SongOption) (hm : Bool)
    (h : searchBranch c q page = .ok ⟨st, .options opts hm⟩) :
    buildSongOptions (search_youtube_songs c.ytSearch q page 5).1 = .ok opts := by
  unfold searchBranch at h
  split at h
  · injection h with h2
    injection h2 with hst hout
    exact VOut.noConfusion hout
  · cases hb : buildSongOptions (search_youtube_songs c.ytSearch q page 5).1 with
    | error er =>
      rw [hb] at h
      exact Except.noConfusion h
    | ok os =>
      rw [hb] at h
      injection h with h2
      injection h2 with hst hout
      injection hout with ho1 ho2
      subst ho1
      rfl

/-- C9: every song option in a `/validate_song` options response has
`preview_url` equal to `youtube_link` — both are copied from the same `url`
field of the corresponding search entry. -/
theorem song_options_preview_url_eq_youtube_link (c : Collab)
    (n y s : Option String) (page st : Nat) (opts : List SongOption) (hm : Bool)
    (h : validate_song c n y s page = .ok ⟨st, .options opts hm⟩) :
    ∀ o ∈ opts, o.preview_url = o.youtube_link := by
  unfold validate_song at h
  by_cases hs : truthy s = true
  · rw [if_pos hs] at h
    exact absurd h (spotifyBranch_not_options c (s.getD "") st opts hm)
  · rw [if_neg hs] at h
    by_cases hy : truthy y = true
    · rw [if_pos hy] at h
      exact absurd h (youtubeBranch_not_options c (y.getD "") st opts hm)
    · rw [if_neg hy] at h
      by_cases hn : truthy n = true
      · rw [if_pos hn] at h
        exact buildSongOptions_fields _ opts
          (searchBranch_options_inv c (n.getD "") page st opts hm h)
      · rw [if_neg hn] at h
        injection h with h2
        injection h2 with hst hout
        exact VOut.noConfusion hout

/-- Witness for C9 on a concrete one-entry search response. -/
theorem song_options_preview_url_eq_youtube_link_witness :
    exOption.preview_url = exOption.youtube_link :=
  song_options_preview_url_eq_youtube_link collabSearch (some "q") none none 1
    200 [exOption] false rfl exOption (List.mem_singleton.mpr rfl)
